import Mathlib

/-!
Verification of the healthcare-knowledge-assistant backend: a shallow
embedding of the tool registry (backend/tools), the document processor
(backend/document_processor.py) and the RAG engine (backend/rag_engine.py),
with theorems about the behaviour their spec describes.

Python dynamic values are embedded as `PyVal`, Python exceptions as
`PyError`; a Python function that can raise is embedded as a function into
`Except PyError _` or, where the call can observably raise or return, as an
`ExecOutcome`.  External collaborators (the langchain text splitter's
character-level algorithm, the zoneinfo database, the wall clock, the
Chroma collection) enter as explicit parameters or state; the code under
src/backend is translated function by function.
-/

namespace HCA

/-- Python runtime values as the tool layer passes them around: the dicts
returned by tools nest strings, ints, bools, None, lists and dicts.  Python
floats occur only as short decimal literals in the mock search results and
are represented by their exact decimal value. -/
inductive PyVal where
  | str (s : String)
  | int (n : Int)
  | bool (b : Bool)
  | num (q : ℚ)
  | pynone
  | list (xs : List PyVal)
  | dict (xs : List (String × PyVal))
deriving Repr, BEq

/-- The Python exception classes the embedded code can raise. -/
inductive PyError where
  | typeError (msg : String)
  | valueError (msg : String)
  | attributeError (msg : String)
  | runtimeError (msg : String)
  | fileNotFoundError (msg : String)
  | otherError (msg : String)
deriving Repr, BEq, DecidableEq

/-- A `**kwargs` dictionary: keyword-argument names with their values. -/
abbrev Kwargs := List (String × PyVal)

/-- Python truthiness for the values that occur here (`if reference_date:`). -/
def PyVal.truthy : PyVal → Bool
  | .str s => !s.isEmpty
  | .int n => n != 0
  | .bool b => b
  | .num q => q != 0
  | .pynone => false
  | .list xs => !xs.isEmpty
  | .dict xs => !xs.isEmpty

/-- The class name Python would report for a value (used in the
AttributeError message of the shadowed-timezone fallback). -/
def PyVal.typeName : PyVal → String
  | .str _ => "str"
  | .int _ => "int"
  | .bool _ => "bool"
  | .num _ => "float"
  | .pynone => "NoneType"
  | .list _ => "list"
  | .dict _ => "dict"

/-! Python string primitives.  A Python str is a sequence of code points, so
they are implemented structurally over `String.data` (Lean's `String`
iterator-based versions compute the same values but are opaque to kernel
reduction). -/

/-- Python `s.split(sep)` for a one-character separator: splitting "" gives
[""], separators at the ends give empty segments. -/
def splitChar (sep : Char) : List Char → List (List Char)
  | [] => [[]]
  | c :: t =>
    if c == sep then [] :: splitChar sep t
    else
      match splitChar sep t with
      | [] => [[c]]
      | h :: r => (c :: h) :: r

/-- Python `s.lower()` (ASCII case mapping suffices for the strings here). -/
def strLower (s : String) : String := String.mk (s.data.map Char.toLower)

/-- Python `s.strip()`: leading and trailing whitespace removed. -/
def strStrip (s : String) : String :=
  String.mk (((s.data.dropWhile Char.isWhitespace).reverse.dropWhile
    Char.isWhitespace).reverse)

/-- Python `c in s` for a single character. -/
def strContainsChar (s : String) (c : Char) : Bool := s.data.contains c

/-- The message text of a Python exception (str(e)). -/
def PyError.msg : PyError → String
  | .typeError m => m
  | .valueError m => m
  | .attributeError m => m
  | .runtimeError m => m
  | .fileNotFoundError m => m
  | .otherError m => m

/-! ## Tool layer (backend/tools/base_tool.py) -/

/-- ToolSchema (base_tool.py): the static descriptor each tool registers.
The per-parameter description dicts carry no behaviour, so `parameters`
keeps only the declared parameter names. -/
structure ToolSchema where
  name : String
  display_name : String
  description : String
  category : String
  parameters : List String
  required_params : List String
  return_type : String
deriving Repr, BEq, DecidableEq

/-- BaseTool.validate_params: raises ValueError naming the first declared
required parameter that is absent from the keyword arguments it receives;
returns True otherwise.  (The `if not self.schema` guard cannot fire: every
tool's constructor sets the schema before any call.) -/
def validate_params (required_params : List String) (kwargs : Kwargs) :
    Except PyError Bool :=
  match required_params.find? (fun r => (kwargs.lookup r).isNone) with
  | some r => .error (.valueError ("Missing required parameter: " ++ r))
  | none => .ok true

/-- BaseTool.format_result: the structured result dict every tool body
returns, in the key order the source writes it. -/
def format_result (toolName : String) (success : Bool) (data : Option PyVal)
    (error : Option String) : List (String × PyVal) :=
  [("success", .bool success),
   ("data", data.getD .pynone),
   ("error", (error.map PyVal.str).getD .pynone),
   ("tool_name", .str toolName)]

/-- One declared parameter of a tool's `execute` signature: its name and its
default value, if the signature gives one. -/
structure PyParam where
  name : String
  default : Option PyVal
deriving Repr, BEq

/-- Python call binding for `execute(self, p1, p2=d2, ..., **kwargs)` invoked
with keyword arguments only (as ToolRegistry.execute_tool does): a declared
parameter takes the matching keyword argument, else its default; a parameter
with no default and no argument makes the call itself raise TypeError before
the body — and the body's try/except — ever runs. -/
def bindParams : List PyParam → Kwargs → Except PyError Kwargs
  | [], _ => .ok []
  | p :: ps, kwargs =>
    match kwargs.lookup p.name, p.default with
    | some v, _ => (bindParams ps kwargs).map (fun rest => (p.name, v) :: rest)
    | none, some d => (bindParams ps kwargs).map (fun rest => (p.name, d) :: rest)
    | none, none =>
      .error (.typeError
        ("execute() missing 1 required positional argument: \x27" ++ p.name ++ "\x27"))

/-- A registered tool: its schema, the named parameters of its `execute`
signature, and the body run on the bound arguments.  Every body catches its
own exceptions (each `execute` wraps everything in try/except), so a body is
a total function into the result dict. -/
structure Tool where
  schema : ToolSchema
  sig : List PyParam
  body : Kwargs → List (String × PyVal)

/-- What a call through the registry observably does: return a dict, or let
an exception escape to the caller. -/
inductive ExecOutcome where
  | result (d : List (String × PyVal))
  | raised (e : PyError)
deriving Repr, BEq

/-! ## Time tools (backend/tools/time_tools.py) -/

/-- The weekday-name list in GetCurrentDateTimeTool.execute. -/
def daysOfWeek : List String :=
  ["Monday", "Tuesday", "Wednesday", "Thursday", "Friday", "Saturday", "Sunday"]

/-- The rendered fields of `datetime.now(tz)` for one zone: what the external
clock supplies to the time tool's success path. -/
structure NowParts where
  isoString : String
  dateStr : String
  timeStr : String
  weekday : Fin 7
  unixTs : Int
  hour : Int
  minute : Int
  second : Int

/-- A calendar date (datetime.date). -/
structure Date where
  year : Nat
  month : Nat
  day : Nat
deriving Repr, BEq, DecidableEq

/-- The external world the time tools read: which strings the zoneinfo
database recognises, the current instant rendered in a given zone, and
today's date (datetime.now().date()). -/
structure WorldEnv where
  validZone : String → Bool
  nowIn : String → NowParts
  today : Date

/-- The message of the AttributeError raised by the fallback branch of
GetCurrentDateTimeTool.execute: after `ZoneInfo(timezone)` fails, the code
runs `tz = timezone.utc`, but `timezone` is the local argument (shadowing the
imported datetime.timezone module), which has no `utc` attribute. -/
def datetimeShadowErr (v : PyVal) : String :=
  "Error getting datetime: \x27" ++ v.typeName ++ "\x27 object has no attribute \x27utc\x27"

/-- GetCurrentDateTimeTool.execute body, on the bound arguments.  The outer
try/except turns every raised exception into a success=False result, so the
body is total.  An argument the zone database rejects reaches the shadowed
`timezone.utc` fallback, whose AttributeError the outer handler converts into
the failure dict — the documented fall-back to UTC never happens. -/
def getCurrentDatetimeBody (env : WorldEnv) (kw : Kwargs) : List (String × PyVal) :=
  let tz := (kw.lookup "timezone").getD (.str "UTC")
  match validate_params [] [("timezone", tz)] with
  | .error e =>
    format_result "get_current_datetime" false none
      (some ("Error getting datetime: " ++ e.msg))
  | .ok _ =>
    match tz with
    | .str z =>
      if env.validZone z then
        let now := env.nowIn z
        format_result "get_current_datetime" true
          (some (.dict
            [("datetime", .str now.isoString),
             ("date", .str now.dateStr),
             ("time", .str now.timeStr),
             ("day_of_week", .str (daysOfWeek.getD now.weekday.val "")),
             ("timezone", .str z),
             ("unix_timestamp", .int now.unixTs),
             ("hour", .int now.hour),
             ("minute", .int now.minute),
             ("second", .int now.second)]))
          none
      else
        format_result "get_current_datetime" false none (some (datetimeShadowErr tz))
    | v =>
      format_result "get_current_datetime" false none (some (datetimeShadowErr v))

/-- Gregorian leap year (datetime's calendar). -/
def isLeapYear (y : Nat) : Bool := (y % 4 == 0 && y % 100 != 0) || (y % 400 == 0)

/-- Length of a month in the proleptic Gregorian calendar. -/
def daysInMonth (y m : Nat) : Nat :=
  if m == 2 then (if isLeapYear y then 29 else 28)
  else if m == 4 || m == 6 || m == 9 || m == 11 then 30
  else 31

/-- Every character a decimal digit and at least one of them. -/
def allDigits (cs : List Char) : Bool := !cs.isEmpty && cs.all Char.isDigit

/-- The numeric value of a decimal digit string. -/
def digitsVal (cs : List Char) : Nat := cs.foldl (fun a c => a * 10 + (c.toNat - 48)) 0

/-- datetime.strptime(s, "%Y-%m-%d").date(): %Y matches exactly four digits,
%m one or two digits valued 1..12, %d one or two digits valued 1..31, and the
date constructor then checks the day against the month length and the year
against MINYEAR = 1.  (For trailing garbage CPython words the ValueError
differently — "unconverted data remains" — but raises the same class; this
model uses the mismatch message for that case too.) -/
def strptimeYMD (s : String) : Except PyError Date :=
  let mismatch : Except PyError Date :=
    .error (.valueError
      ("time data \x27" ++ s ++ "\x27 does not match format \x27%Y-%m-%d\x27"))
  match splitChar '-' s.data with
  | [ys, ms, ds] =>
    if allDigits ys && ys.length == 4 && allDigits ms && ms.length ≤ 2
        && allDigits ds && ds.length ≤ 2 then
      let y := digitsVal ys
      let m := digitsVal ms
      let d := digitsVal ds
      if 1 ≤ m && m ≤ 12 then
        if 1 ≤ d && d ≤ 31 then
          if y == 0 then .error (.valueError "year 0 is out of range")
          else if d ≤ daysInMonth y m then .ok ⟨y, m, d⟩
          else .error (.valueError "day is out of range for month")
        else mismatch
      else mismatch
    else mismatch
  | _ => mismatch

/-- Days since 1970-01-01 of a civil date (Hinnant's algorithm), the meaning
of `(ref_dt - birth_dt).days` for datetime.date values. -/
def daysFromCivil (y m d : Nat) : Int :=
  let y2 := if m ≤ 2 then y - 1 else y
  let era := y2 / 400
  let yoe := y2 % 400
  let mp := if m > 2 then m - 3 else m + 9
  let doy := (153 * mp + 2) / 5 + (d - 1)
  let doe := yoe * 365 + yoe / 4 - yoe / 100 + doy
  (.ofNat (era * 146097 + doe)) - 719468

/-- Zero-padded two-digit rendering (strftime %m, %d). -/
def pad2 (n : Nat) : String := if n < 10 then "0" ++ toString n else toString n

/-- Zero-padded four-digit rendering (strftime %Y). -/
def pad4 (n : Nat) : String :=
  if n < 10 then "000" ++ toString n
  else if n < 100 then "00" ++ toString n
  else if n < 1000 then "0" ++ toString n
  else toString n

/-- strftime("%Y-%m-%d"). -/
def fmtYMD (d : Date) : String := pad4 d.year ++ "-" ++ pad2 d.month ++ "-" ++ pad2 d.day

/-- CalculateAgeTool.execute body on the bound arguments: parse the birth
date, take the reference date if truthy else today, do the year/month/day
arithmetic with the 30-day month adjustment, and report.  ValueError from
parsing gets the date-format message; any other exception the generic one. -/
def calculateAgeBody (env : WorldEnv) (kw : Kwargs) : List (String × PyVal) :=
  let birthdateV := (kw.lookup "birthdate").getD .pynone
  let referenceV := (kw.lookup "reference_date").getD .pynone
  let parseAsDate : PyVal → Except PyError Date := fun v =>
    match v with
    | .str s => strptimeYMD s
    | w => .error (.typeError ("strptime() argument 1 must be str, not " ++ w.typeName))
  match validate_params ["birthdate"] [("birthdate", birthdateV)] with
  | .error (.valueError m) =>
    format_result "calculate_age" false none
      (some ("Invalid date format. Use YYYY-MM-DD: " ++ m))
  | .error e =>
    format_result "calculate_age" false none (some ("Error calculating age: " ++ e.msg))
  | .ok _ =>
    match parseAsDate birthdateV with
    | .error (.valueError m) =>
      format_result "calculate_age" false none
        (some ("Invalid date format. Use YYYY-MM-DD: " ++ m))
    | .error e =>
      format_result "calculate_age" false none (some ("Error calculating age: " ++ e.msg))
    | .ok birth =>
      match if referenceV.truthy then parseAsDate referenceV else .ok env.today with
      | .error (.valueError m) =>
        format_result "calculate_age" false none
          (some ("Invalid date format. Use YYYY-MM-DD: " ++ m))
      | .error e =>
        format_result "calculate_age" false none (some ("Error calculating age: " ++ e.msg))
      | .ok ref =>
        let ageYears0 : Int := (ref.year : Int) - (birth.year : Int)
        let ageMonths0 : Int := (ref.month : Int) - (birth.month : Int)
        let ageDays0 : Int := (ref.day : Int) - (birth.day : Int)
        let ageMonths1 := if ageDays0 < 0 then ageMonths0 - 1 else ageMonths0
        let ageDays1 := if ageDays0 < 0 then ageDays0 + 30 else ageDays0
        let ageYears1 := if ageMonths1 < 0 then ageYears0 - 1 else ageYears0
        let ageMonths2 := if ageMonths1 < 0 then ageMonths1 + 12 else ageMonths1
        let isBirthday := ref.month == birth.month && ref.day == birth.day
        format_result "calculate_age" true
          (some (.dict
            [("age_years", .int ageYears1),
             ("age_months", .int ageMonths2),
             ("age_days", .int ageDays1),
             ("birthdate", birthdateV),
             ("reference_date", .str (fmtYMD ref)),
             ("is_birthday_today", .bool isBirthday),
             ("total_days_lived", .int
               (daysFromCivil ref.year ref.month ref.day
                 - daysFromCivil birth.year birth.month birth.day))]))
          none

/-- GetWorkingHoursTool.HOSPITAL_SCHEDULE, in source order. -/
def HOSPITAL_SCHEDULE : List (String × PyVal) :=
  [("emergency", .dict [("name", .str "Emergency Department"), ("hours", .str "24/7"),
     ("is_24_7", .bool true), ("note", .str "Always open")]),
   ("icu", .dict [("name", .str "Intensive Care Unit"), ("hours", .str "24/7"),
     ("is_24_7", .bool true), ("note", .str "Always open")]),
   ("opd", .dict [("name", .str "Out Patient Department"),
     ("monday_friday", .str "09:00 - 17:00"), ("saturday", .str "09:00 - 13:00"),
     ("sunday", .str "Closed"), ("is_24_7", .bool false)]),
   ("pharmacy", .dict [("name", .str "Pharmacy"),
     ("monday_friday", .str "08:00 - 20:00"), ("saturday", .str "09:00 - 18:00"),
     ("sunday", .str "10:00 - 15:00"), ("is_24_7", .bool false)]),
   ("billing", .dict [("name", .str "Billing Department"),
     ("monday_friday", .str "10:00 - 16:00"), ("saturday", .str "10:00 - 14:00"),
     ("sunday", .str "Closed"), ("is_24_7", .bool false)])]

/-- GetWorkingHoursTool.execute body: lower-case and strip the department,
look it up in the schedule, and report; a non-string department makes
`.lower()` raise AttributeError, which the catch-all turns into the generic
failure message. -/
def getWorkingHoursBody (kw : Kwargs) : List (String × PyVal) :=
  let departmentV := (kw.lookup "department").getD .pynone
  match validate_params ["department"] [("department", departmentV)] with
  | .error e =>
    format_result "get_working_hours" false none
      (some ("Error fetching working hours: " ++ e.msg))
  | .ok _ =>
    match departmentV with
    | .str dep =>
      let depLower := strStrip (strLower dep)
      match HOSPITAL_SCHEDULE.lookup depLower with
      | none =>
        format_result "get_working_hours" false none
          (some "Department not found. Available: emergency, icu, opd, pharmacy, billing")
      | some d => format_result "get_working_hours" true (some d) none
    | v =>
      format_result "get_working_hours" false none
        (some ("Error fetching working hours: \x27" ++ v.typeName
          ++ "\x27 object has no attribute \x27lower\x27"))

/-! ## Search tools (backend/tools/search_tools.py) -/

/-- The mock result list of SearchInternalDocsTool.execute. -/
def mockInternalResults : List PyVal :=
  [.dict [("id", .str "doc_001"), ("title", .str "Visitor Policy"),
     ("type", .str "policy"),
     ("excerpt", .str "Visiting hours: 10:00-12:00, 16:00-18:00 daily"),
     ("relevance_score", .num (95/100))],
   .dict [("id", .str "doc_002"), ("title", .str "ICU Visiting Guidelines"),
     ("type", .str "procedure"),
     ("excerpt", .str "ICU visitors limited to 1 per patient per visit"),
     ("relevance_score", .num (87/100))],
   .dict [("id", .str "doc_003"), ("title", .str "Admission Procedures"),
     ("type", .str "policy"),
     ("excerpt", .str "New admissions: Check-in at Reception, complete forms..."),
     ("relevance_score", .num (72/100))]]

/-- How many leading elements Python's `xs[:n]` keeps from a list of the
given length: `min len n` for a non-negative bound, `len - |n|` (at least 0)
for a negative one. -/
def pySliceKeep (len : Nat) (n : Int) : Nat :=
  if n < 0 then len - min len n.natAbs else min len n.toNat

/-- SearchInternalDocsTool.execute body: mock results, the doc_type filter
(Python equality between the entry's "type" string and the given value), and
the `[:limit]` slice.  A limit that is no integer (bool counts as an int with
value 0/1, None means an open slice) makes the slice raise TypeError, which
the catch-all converts to the failure dict. -/
def searchInternalDocsBody (kw : Kwargs) : List (String × PyVal) :=
  let queryV := (kw.lookup "query").getD .pynone
  let docTypeV := (kw.lookup "doc_type").getD (.str "all")
  let limitV := (kw.lookup "limit").getD (.int 5)
  match validate_params ["query"] [("query", queryV)] with
  | .error e =>
    format_result "search_internal_docs" false none (some ("Search failed: " ++ e.msg))
  | .ok _ =>
    let results1 :=
      if docTypeV != .str "all" then
        mockInternalResults.filter (fun r =>
          match r with
          | .dict fields => ((fields.lookup "type").getD .pynone) == docTypeV
          | _ => false)
      else mockInternalResults
    let sliced : Except PyError (List PyVal) :=
      match limitV with
      | .int n => .ok (results1.take (pySliceKeep results1.length n))
      | .bool b => .ok (results1.take (pySliceKeep results1.length (if b then 1 else 0)))
      | .pynone => .ok results1
      | _ => .error (.typeError
          "slice indices must be integers or None or have an __index__ method")
    match sliced with
    | .error e =>
      format_result "search_internal_docs" false none (some ("Search failed: " ++ e.msg))
    | .ok results2 =>
      format_result "search_internal_docs" true
        (some (.dict
          [("query", queryV),
           ("results_count", .int results2.length),
           ("results", .list results2),
           ("search_time_ms", .int 125)]))
        none

/-- The mock result list of WebSearchTool.execute. -/
def mockWebResults : List PyVal :=
  [.dict [("title", .str "Health Topic Overview"),
     ("url", .str "https://health-resource.com/info"),
     ("snippet", .str "General information about the health topic..."),
     ("source", .str "Medical Database"), ("date", .str "2025-11-15")],
   .dict [("title", .str "Latest Medical Research"),
     ("url", .str "https://research.journal.com/article"),
     ("snippet", .str "Recent findings show..."),
     ("source", .str "Medical Journal"), ("date", .str "2025-11-10")]]

/-- WebSearchTool.execute body: always the two mock results (source_filter is
bound but unused by the body). -/
def webSearchBody (kw : Kwargs) : List (String × PyVal) :=
  let queryV := (kw.lookup "query").getD .pynone
  match validate_params ["query"] [("query", queryV)] with
  | .error e =>
    format_result "web_search" false none (some ("Web search failed: " ++ e.msg))
  | .ok _ =>
    format_result "web_search" true
      (some (.dict
        [("query", queryV),
         ("results", .list mockWebResults),
         ("total_results", .int mockWebResults.length)]))
      none

/-! ## The five tools and the registry (backend/tools/registry.py) -/

/-- GetCurrentDateTimeTool: schema and `execute(self, timezone="UTC", **kwargs)`. -/
def getCurrentDateTimeTool (env : WorldEnv) : Tool where
  schema :=
    { name := "get_current_datetime", display_name := "Get Current DateTime",
      description := "Get current date, time, day of week, and timestamp",
      category := "time", parameters := ["timezone"], required_params := [],
      return_type := "object" }
  sig := [⟨"timezone", some (.str "UTC")⟩]
  body := getCurrentDatetimeBody env

/-- CalculateAgeTool: schema and `execute(self, birthdate, reference_date=None, **kwargs)` —
note `birthdate` has no default in the signature. -/
def calculateAgeTool (env : WorldEnv) : Tool where
  schema :=
    { name := "calculate_age", display_name := "Calculate Age",
      description := "Calculate patient age in years, months, days from birthdate",
      category := "medical", parameters := ["birthdate", "reference_date"],
      required_params := ["birthdate"], return_type := "object" }
  sig := [⟨"birthdate", none⟩, ⟨"reference_date", some .pynone⟩]
  body := calculateAgeBody env

/-- GetWorkingHoursTool: schema and `execute(self, department, **kwargs)`. -/
def getWorkingHoursTool : Tool where
  schema :=
    { name := "get_working_hours", display_name := "Get Working Hours",
      description := "Get working hours for hospital departments",
      category := "hospital", parameters := ["department"],
      required_params := ["department"], return_type := "object" }
  sig := [⟨"department", none⟩]
  body := getWorkingHoursBody

/-- SearchInternalDocsTool: schema and
`execute(self, query, doc_type="all", limit=5, **kwargs)`. -/
def searchInternalDocsTool : Tool where
  schema :=
    { name := "search_internal_docs", display_name := "Search Internal Documents",
      description := "Search hospital knowledge base, policies, and procedures",
      category := "search", parameters := ["query", "doc_type", "limit"],
      required_params := ["query"], return_type := "array" }
  sig := [⟨"query", none⟩, ⟨"doc_type", some (.str "all")⟩, ⟨"limit", some (.int 5)⟩]
  body := searchInternalDocsBody

/-- WebSearchTool: schema and `execute(self, query, source_filter="all", **kwargs)`. -/
def webSearchTool : Tool where
  schema :=
    { name := "web_search", display_name := "Web Search",
      description := "Search external web for health/medical information",
      category := "search", parameters := ["query", "source_filter"],
      required_params := ["query"], return_type := "array" }
  sig := [⟨"query", none⟩, ⟨"source_filter", some (.str "all")⟩]
  body := webSearchBody

/-- ToolRegistry._initialize_tools: the five tools in registration order,
each keyed by its schema name. -/
def registryTools (env : WorldEnv) : List (String × Tool) :=
  [("get_current_datetime", getCurrentDateTimeTool env),
   ("calculate_age", calculateAgeTool env),
   ("get_working_hours", getWorkingHoursTool),
   ("search_internal_docs", searchInternalDocsTool),
   ("web_search", webSearchTool)]

/-- ToolRegistry.get_tool_names. -/
def get_tool_names (env : WorldEnv) : List String := (registryTools env).map Prod.fst

/-- ToolRegistry.execute_tool: an unknown name yields a plain failure dict;
for a known tool, `await tool.execute(**kwargs)` is called with NO try/except
around it, so whatever the call raises — in particular the TypeError Python
itself raises when a no-default parameter gets no argument — propagates to
the registry's caller. -/
def execute_tool (env : WorldEnv) (toolName : String) (kwargs : Kwargs) : ExecOutcome :=
  match (registryTools env).lookup toolName with
  | none => .result [("success", .bool false),
      ("error", .str ("Tool \x27" ++ toolName ++ "\x27 not found"))]
  | some t =>
    match bindParams t.sig kwargs with
    | .error e => .raised e
    | .ok bound => .result (t.body bound)

/-! ## Document processor (backend/document_processor.py) -/

/-- A loaded document: its full text and the metadata the DirectoryLoader /
TextLoader attach — `source`, the file path. -/
structure IngestDoc where
  pageContent : String
  source : String
deriving Repr, BEq, DecidableEq

/-- A chunk as langchain's Document: its text plus metadata.  `source` is
copied from the originating document; `chunk_index` and `chunk_size` are
absent until DocumentProcessor.split_documents adds them. -/
structure Chunk where
  pageContent : String
  source : String
  chunk_index : Option Nat
  chunk_size : Option Nat
deriving Repr, BEq, DecidableEq

/-- langchain's `TextSplitter.split_documents` / `create_documents`: each
document's text is split by the character-level algorithm, and every piece
becomes a new Document carrying a (deep-copied) copy of that document's
metadata, documents in order.  The recursive character splitting algorithm
itself lives in the external langchain_text_splitters package and enters as
the `splitText` parameter. -/
def lcSplitDocuments (splitText : String → List String) (docs : List IngestDoc) :
    List Chunk :=
  docs.flatMap (fun d => (splitText d.pageContent).map (fun t => ⟨t, d.source, none, none⟩))

/-- The post-split metadata loop of DocumentProcessor.split_documents on one
enumerated chunk: `chunk.metadata["chunk_index"] = i` and
`chunk.metadata["chunk_size"] = len(chunk.page_content)`. -/
def tagChunk (p : Nat × Chunk) : Chunk :=
  { p.2 with chunk_index := some p.1, chunk_size := some p.2.pageContent.length }

/-- DocumentProcessor.split_documents: builds the RecursiveCharacterTextSplitter
from the configured chunk_size and chunk_overlap — the repository adds no
validation of its own; the external splitter's constructor
(langchain TextSplitter.__init__) rejects a chunk_overlap strictly larger
than chunk_size with a ValueError, and accepts everything else, including
chunk_overlap equal to chunk_size — splits the batch, then tags each chunk
with the batch-wide enumeration index and its own character length. -/
def split_documents (splitText : Nat → Nat → String → List String)
    (chunk_size chunk_overlap : Nat) (docs : List IngestDoc) :
    Except PyError (List Chunk) :=
  if chunk_overlap > chunk_size then
    .error (.valueError ("Got a larger chunk overlap (" ++ toString chunk_overlap
      ++ ") than chunk size (" ++ toString chunk_size ++ "), should be smaller."))
  else
    .ok ((lcSplitDocuments (splitText chunk_size chunk_overlap) docs).enum.map tagChunk)

/-- The persisted Chroma collection as the processor sees it: `none` when
opening or counting the collection fails (no persisted collection, an
unreachable store), otherwise the stored chunk entries. -/
structure ChromaState where
  collection : Option (List Chunk)

/-- Opening the store and asking `_collection.count()`: the entry count, or
the exception the access raises when the collection is unavailable. -/
def collectionCount (st : ChromaState) : Except PyError Nat :=
  match st.collection with
  | none => .error (.otherError "collection unavailable")
  | some entries => .ok entries.length

/-- The fixed collaborators of one ingestion run: what load_documents would
yield (or raise), the external splitting algorithm, the configured sizes,
whether the embedding/storage call fails, and the wall-clock time the work
takes (the no-op early return reports the literal 0.0 instead). -/
structure IngestEnv where
  loadDocs : Except PyError (List IngestDoc)
  splitText : Nat → Nat → String → List String
  chunk_size : Nat
  chunk_overlap : Nat
  embedFailure : Option String
  elapsed : ℚ

/-- DocumentProcessor.ingest_documents.  Returns the state of the collection
afterwards, the list of pipeline actions performed (load / split / embed, in
order), and either the raised exception or the (documents_processed,
chunks_created, time_taken) triple.  When force_reindex is false and the
existing collection's count is positive, the function returns
(0, existing_count, 0.0) before any loading, splitting or embedding; a
failure of the count check is swallowed (`except Exception: pass`) and the
pipeline continues. -/
def ingest_documents (env : IngestEnv) (st : ChromaState) (force_reindex : Bool) :
    ChromaState × List String × Except PyError (Nat × Nat × ℚ) :=
  let skip : Option Nat :=
    if force_reindex then none
    else
      match collectionCount st with
      | .ok n => if n > 0 then some n else none
      | .error _ => none
  match skip with
  | some existing_count => (st, [], .ok (0, existing_count, 0))
  | none =>
    match env.loadDocs with
    | .error e => (st, ["load"], .error e)
    | .ok documents =>
      match split_documents env.splitText env.chunk_size env.chunk_overlap documents with
      | .error e => (st, ["load", "split"], .error e)
      | .ok chunks =>
        match env.embedFailure with
        | some msg =>
          (st, ["load", "split", "embed"],
           .error (.runtimeError ("❌ Failed to create vector store: " ++ msg)))
        | none =>
          ({ collection := some ((st.collection.getD []) ++ chunks) },
           ["load", "split", "embed"],
           .ok (documents.length, chunks.length, env.elapsed))

/-- DocumentProcessor.get_document_count: the collection count, with every
exception of the access caught and turned into 0. -/
def get_document_count (st : ChromaState) : Int :=
  match collectionCount st with
  | .ok n => (n : Int)
  | .error _ => 0

/-! ## RAG engine (backend/rag_engine.py)

UserRole (backend/models.py) is a str-enum with the four members "doctor",
"receptionist", "billing" and "general"; a str-enum member compares and
hashes as its string, so roles are embedded as strings here and
`ROLE_PROMPTS.get` is a string-keyed lookup. -/

/-- RAGEngine.ROLE_PROMPTS[UserRole.DOCTOR]. -/
def DOCTOR_PROMPT : String :=
  "You are a helpful AI assistant designed for doctors and medical professionals at a hospital.\n\nYour Role:\n- Answer questions about hospital policies, procedures, and patient care guidelines\n- Provide detailed, accurate medical information suitable for healthcare professionals\n- Use ONLY information from the provided context\n\nSAFETY RULES (CRITICAL):\n1. NEVER provide medical diagnosis\n2. NEVER prescribe medications or recommend dosages\n3. NEVER provide treatment recommendations\n4. ONLY use information from the provided context\n5. If information is not in context, state \"I don\x27t have that information in our records\"\n6. For emergencies, direct to call 911\n\nFormat: Be clear, professional, use bullet points when helpful."

/-- RAGEngine.ROLE_PROMPTS[UserRole.RECEPTIONIST]. -/
def RECEPTIONIST_PROMPT : String :=
  "You are a helpful AI assistant for hospital reception and front-desk staff.\n\nYour Role:\n- Answer questions about admission procedures, visiting hours, appointments\n- Provide clear general hospital information\n- Use ONLY information from the provided context\n\nSAFETY RULES (CRITICAL):\n1. ONLY answer questions based on provided information\n2. Direct medical questions to medical staff\n3. If unsure, say \"I don\x27t have that information, let me connect you with the right department\"\n4. For emergencies, direct to call 911\n\nFormat: Keep responses simple, professional, clear."

/-- RAGEngine.ROLE_PROMPTS[UserRole.BILLING]. -/
def BILLING_PROMPT : String :=
  "You are a helpful AI assistant for hospital billing and financial services.\n\nYour Role:\n- Answer questions about billing, insurance, payment options, and financial policies\n- Provide clear information about costs and payment processes\n- Use ONLY information from the provided context\n\nSAFETY RULES (CRITICAL):\n1. ONLY use information from provided context\n2. Don\x27t make financial recommendations\n3. For insurance questions, suggest checking with insurance provider directly\n4. If unsure, say \"Please contact our billing department for clarification\"\n\nFormat: Be precise about financial information, use clear language."

/-- RAGEngine.ROLE_PROMPTS[UserRole.GENERAL]. -/
def GENERAL_PROMPT : String :=
  "You are a helpful AI assistant for general hospital information.\n\nYour Role:\n- Answer questions about hospital services, policies, and procedures\n- Provide clear, easy-to-understand information for patients and visitors\n- Use ONLY information from the provided context\n\nSAFETY RULES (CRITICAL):\n1. ONLY answer based on provided information\n2. Do NOT provide medical advice\n3. If medical question, suggest consulting healthcare professionals\n4. For emergencies, direct to call 911\n\nFormat: Use simple language, be friendly and professional."

/-- RAGEngine.ROLE_PROMPTS, keyed by the role's string value. -/
def ROLE_PROMPTS : List (String × String) :=
  [("doctor", DOCTOR_PROMPT), ("receptionist", RECEPTIONIST_PROMPT),
   ("billing", BILLING_PROMPT), ("general", GENERAL_PROMPT)]

/-- RAGEngine.DISCLAIMER, the fixed safety text attached to every response. -/
def DISCLAIMER : String :=
  "⚠️ IMPORTANT DISCLAIMER:\nThis information is for general guidance only. For medical advice, diagnosis, or treatment, please consult with qualified healthcare professionals. In case of emergency, call 911 or visit the Emergency Department immediately."

/-- The f-string scaffold RAGEngine._create_prompt_template wraps around the
selected persona block (the \x7bcontext\x7d and \x7bquestion\x7d
placeholders are the PromptTemplate input variables, kept literally). -/
def promptScaffold (role_context : String) : String :=
  role_context ++
    "\n\n===== CONTEXT FROM DOCUMENTS =====\n\x7bcontext\x7d\n\n===== USER QUESTION =====\n\x7bquestion\x7d\n\n===== RESPONSE =====\nProvide a clear, detailed response based ONLY on the context above.\nInclude relevant details and use bullet points if appropriate.\nDO NOT make up information not in the context."

/-- RAGEngine._create_prompt_template: `ROLE_PROMPTS.get(user_role,
ROLE_PROMPTS[UserRole.GENERAL])` wrapped in the template scaffold — an
unrecognised role takes the GENERAL persona, and nothing raises. -/
def create_prompt_template (user_role : String) : String :=
  promptScaffold ((ROLE_PROMPTS.lookup user_role).getD GENERAL_PROMPT)

/-- A retrieved source document as the chain hands it back: its text and the
metadata fields _process_sources reads (each may be absent). -/
structure RetrievedDoc where
  pageContent : String
  source : Option String
  chunk_index : Option Nat
deriving Repr, BEq, DecidableEq

/-- One entry of the `sources` list in the query response. -/
structure SourceEntry where
  filename : String
  chunk_index : Nat
  relevance_score : ℚ
  content_preview : String
deriving Repr, BEq, DecidableEq

/-- Python string slicing s[:n]: the first n code points. -/
def pySlice (s : String) (n : Nat) : String := String.mk (s.data.take n)

/-- The filename extraction of _process_sources: when the metadata source
contains a path separator, `split("/")[-1].split("\\")[-1]`. -/
def stripPath (s : String) : String :=
  if strContainsChar s '/' || strContainsChar s '\\' then
    String.mk (((splitChar '\\' ((splitChar '/' s.data).getLastD s.data)).getLastD s.data))
  else s

/-- Python round(x, 2) on the rank scores.  The reference computes
round(1.0 - i*0.1, 2) in binary floating point; each such float lies within
about 10⁻¹⁵ of the exact rational 1 - i/10, whose decimal expansion stops at
the tenths digit, so rounding to two decimals — under float semantics,
banker's rounding, or the ties-up `round` used here, which all agree away
from two-decimal ties — yields exactly that rational. -/
def pyRound2 (q : ℚ) : ℚ := ((round (q * 100) : ℤ) : ℚ) / 100

/-- RAGEngine._process_sources: filename from the source metadata, the
chunk_index metadata (enumeration position when absent), the rank-based
score round(1.0 - i*0.1, 2), and the first 200 characters of the content
with "..." appended whenever the content is longer than 200 characters. -/
def process_sources (source_documents : List RetrievedDoc) : List SourceEntry :=
  source_documents.enum.map (fun p =>
    { filename := stripPath (p.2.source.getD "unknown"),
      chunk_index := p.2.chunk_index.getD p.1,
      relevance_score := pyRound2 (1 - (p.1 : ℚ) / 10),
      content_preview :=
        pySlice p.2.pageContent 200
          ++ (if 200 < p.2.pageContent.length then "..." else "") })

/-- Whether `needle` occurs as a contiguous run inside `hay`
(Python's `needle in hay` on strings). -/
def hasInfix (needle : List Char) : List Char → Bool
  | [] => needle.isEmpty
  | c :: t => needle.isPrefixOf (c :: t) || hasInfix needle t

/-- Python `needle in hay` for strings. -/
def strContains (hay needle : String) : Bool := hasInfix needle.data hay.data

/-- RAGEngine._extract_tools_used: every registered tool name whose
lower-cased text occurs in the lower-cased response, in registry order. -/
def extract_tools_used (tool_names : List String) (response : String) : List String :=
  tool_names.filter (fun name => strContains (strLower response) (strLower name))

/-- What qa_chain.invoke returns when it does not raise: result["result"]
and, since return_source_documents was requested, possibly
result["source_documents"]. -/
structure ChainOutput where
  result : String
  source_documents : Option (List RetrievedDoc)

/-- The response dict RAGEngine.query builds (backend/models.py
QueryResponse shape). -/
structure QueryResult where
  question : String
  answer : String
  sources : List SourceEntry
  user_role : String
  disclaimer : String
  processing_time_seconds : ℚ
  tools_used : List String
deriving Repr, BEq, DecidableEq

/-- RAGEngine.query.  The retrieval handle, role prompt, tool catalogue and
chain are assembled before the guarded region; the single operation inside
the `try` is `qa_chain.invoke({"query": question})`, whose outcome — the
answer payload, or str(e) of whatever the provider call raised — enters as
`chainInvoke`.  On an exception the function returns the degraded dict
(error-describing answer, empty sources, empty tools_used) instead of
re-raising.  `elapsedAtError`/`elapsedAtEnd` stand for
round(time.time() - start_time, 2) at the two return sites. -/
def rag_query (tool_names : List String) (chainInvoke : Except String ChainOutput)
    (elapsedAtError elapsedAtEnd : ℚ) (question : String) (user_role : String)
    (include_sources : Bool) : QueryResult :=
  match chainInvoke with
  | .error e =>
    { question := question,
      answer := "❌ Error processing query: " ++ e,
      sources := [],
      user_role := user_role,
      disclaimer := DISCLAIMER,
      processing_time_seconds := elapsedAtError,
      tools_used := [] }
  | .ok result =>
    let sources :=
      if include_sources then
        match result.source_documents with
        | some docs => process_sources docs
        | none => []
      else []
    { question := question,
      answer := result.result,
      sources := sources,
      user_role := user_role,
      disclaimer := DISCLAIMER,
      processing_time_seconds := elapsedAtEnd,
      tools_used := extract_tools_used tool_names result.result }

/-! ## Concrete fixtures for the closed theorems -/

/-- A concrete world: the zone database recognises exactly UTC and
Asia/Kolkata, the clock is frozen at 2025-11-17 23:30:45 (+05:30). -/
def exEnv : WorldEnv where
  validZone := fun z => z == "UTC" || z == "Asia/Kolkata"
  nowIn := fun _ =>
    ⟨"2025-11-17T23:30:45+05:30", "2025-11-17", "23:30:45", 0, 1763402445, 23, 30, 45⟩
  today := ⟨2025, 11, 17⟩

/-- A concrete stand-in for the external splitting algorithm: one piece per
line. -/
def exSplitText (_chunk_size _chunk_overlap : Nat) (s : String) : List String :=
  (splitChar (Char.ofNat 10) s.data).map String.mk

/-- Two loaded documents for an ingestion batch. -/
def exDocs : List IngestDoc :=
  [⟨"alpha\nbeta", "data/sample_docs/a.txt"⟩, ⟨"gamma", "data/sample_docs/b.txt"⟩]

/-- The chunks split_documents produces from `exDocs` under `exSplitText`:
batch-wide indices 0, 1, 2 across the two documents. -/
def exChunks : List Chunk :=
  [⟨"alpha", "data/sample_docs/a.txt", some 0, some 5⟩,
   ⟨"beta", "data/sample_docs/a.txt", some 1, some 4⟩,
   ⟨"gamma", "data/sample_docs/b.txt", some 2, some 5⟩]

/-- An ingestion environment whose loading would succeed on `exDocs`. -/
def exIngestEnv : IngestEnv := ⟨.ok exDocs, exSplitText, 1000, 200, none, 3⟩

/-- A store whose collection already holds the three chunks. -/
def exState : ChromaState := ⟨some exChunks⟩

/-- A retrieved chunk whose content is 201 characters long. -/
def longDoc : RetrievedDoc :=
  ⟨String.mk (List.replicate 201 (Char.ofNat 97)), some "policy.txt", some 0⟩

/-- Twelve retrieved documents — enough for rank position 11. -/
def exRetrieved12 : List RetrievedDoc := List.replicate 12 ⟨"text", some "a.txt", none⟩

/-! ## Theorems -/

/-- C1: for every question and role, when the chain invocation raises (the
generation provider call failed), RAGEngine.query does not raise outward: it
returns the dict whose answer is the error-describing string
"❌ Error processing query: ..." followed by str(e), whose sources list is
empty and whose tools_used is empty. -/
theorem rag_query_provider_failure (tool_names : List String) (e : String)
    (tErr tOk : ℚ) (question user_role : String) (include_sources : Bool) :
    rag_query tool_names (.error e) tErr tOk question user_role include_sources
      = { question := question,
          answer := "❌ Error processing query: " ++ e,
          sources := [],
          user_role := user_role,
          disclaimer := DISCLAIMER,
          processing_time_seconds := tErr,
          tools_used := [] } := rfl

/-- C2 (the code's actual behaviour at the failing input): invoking
calculate_age through the registry without its declared required parameter
`birthdate` never reaches BaseTool.validate_params — Python's call binding
raises TypeError first, and ToolRegistry.execute_tool, having no try/except
around `tool.execute(**kwargs)`, lets that exception escape to its caller
instead of returning a structured validation failure. -/
theorem execute_tool_missing_required_param_raises :
    execute_tool exEnv "calculate_age" []
      = .raised (.typeError
          "execute() missing 1 required positional argument: \x27birthdate\x27") := rfl

/-- C3 (the code's actual behaviour at the failing input): with chunk_overlap
equal to chunk_size (100 = 100), split_documents raises no configuration
error — the repository performs no chunk_overlap/chunk_size validation of its
own and the external splitter's constructor rejects only a strictly larger
overlap — and the split is attempted and succeeds. -/
theorem split_documents_equal_overlap_no_error :
    split_documents exSplitText 100 100 [⟨"hello world", "docs/h.txt"⟩]
      = .ok [⟨"hello world", "docs/h.txt", some 0, some 11⟩] := rfl

/-- The length of _process_sources' output equals the number of retrieved
documents. -/
theorem process_sources_length (docs : List RetrievedDoc) :
    (process_sources docs).length = docs.length := by
  simp [process_sources, List.enum_eq_enumFrom]

/-- Pointwise description of _process_sources: the entry at rank i is built
from the i-th retrieved document and the rank itself. -/
theorem process_sources_get (docs : List RetrievedDoc) (i : Nat)
    (h : i < docs.length) (hp : i < (process_sources docs).length) :
    (process_sources docs).get ⟨i, hp⟩ =
      { filename := stripPath (((docs.get ⟨i, h⟩).source).getD "unknown"),
        chunk_index := ((docs.get ⟨i, h⟩).chunk_index).getD i,
        relevance_score := pyRound2 (1 - (i : ℚ) / 10),
        content_preview :=
          pySlice (docs.get ⟨i, h⟩).pageContent 200
            ++ (if 200 < (docs.get ⟨i, h⟩).pageContent.length then "..." else "") } := by
  simp [process_sources, List.get_eq_getElem, List.getElem_map, List.enum_eq_enumFrom,
    List.getElem_enumFrom]

/-- Rounding 1 - i/10 to two decimals is the identity: the value already has
a one-digit decimal expansion. -/
theorem pyRound2_rank (i : Nat) : pyRound2 (1 - (i : ℚ) / 10) = 1 - (i : ℚ) / 10 := by
  unfold pyRound2
  have h1 : (1 - (i : ℚ) / 10) * 100 = ((100 - 10 * (i : ℤ) : ℤ) : ℚ) := by push_cast; ring
  rw [h1, round_intCast]
  push_cast
  ring

/-- C4 (amended): each source entry's content_preview is the first 200
characters of the chunk content with "..." appended whenever the content is
longer than 200 characters; consequently its length is at most 203 (not 200:
the appended ellipsis pushes long previews to 203 characters). -/
theorem process_sources_preview_spec (docs : List RetrievedDoc) (i : Nat)
    (h : i < docs.length) :
    ∃ hp : i < (process_sources docs).length,
      ((process_sources docs).get ⟨i, hp⟩).content_preview
        = pySlice (docs.get ⟨i, h⟩).pageContent 200
            ++ (if 200 < (docs.get ⟨i, h⟩).pageContent.length then "..." else "")
      ∧ ((process_sources docs).get ⟨i, hp⟩).content_preview.length ≤ 203 := by
  have hp : i < (process_sources docs).length := by rw [process_sources_length]; exact h
  refine ⟨hp, ?_, ?_⟩
  · rw [process_sources_get docs i h hp]
  · rw [process_sources_get docs i h hp]
    simp only [String.length_append, pySlice, String.length_mk, List.length_take]
    split
    · have h3 : ("...").length = 3 := rfl
      omega
    · have h0 : ("").length = 0 := rfl
      omega

set_option maxRecDepth 10000 in
/-- C4 (counterexample to the claim as stated): for a 201-character chunk the
content_preview is 203 characters long — the 200-character prefix plus the
appended "..." — so it is neither exactly the first 200 characters of the
content nor at most 200 characters long. -/
theorem process_sources_preview_exceeds_200 :
    (process_sources [longDoc]).map (fun s => s.content_preview.length) = [203] := by
  decide

/-- Witness for the amended C4 at the concrete 201-character chunk. -/
theorem process_sources_preview_spec_witness :
    ∃ hp : 0 < (process_sources [longDoc]).length,
      ((process_sources [longDoc]).get ⟨0, hp⟩).content_preview
        = pySlice ([longDoc].get ⟨0, by decide⟩).pageContent 200
            ++ (if 200 < ([longDoc].get ⟨0, by decide⟩).pageContent.length then "..." else "")
      ∧ ((process_sources [longDoc]).get ⟨0, hp⟩).content_preview.length ≤ 203 :=
  process_sources_preview_spec [longDoc] 0 (by decide)

/-- C8: the relevance_score of the source at rank i is exactly
round(1.0 - i*0.1, 2) = 1 - i/10 — a function of the rank alone, hence
independent of the document's actual similarity — the sequence is strictly
descending in the rank, and it is negative for every rank i ≥ 11. -/
theorem process_sources_rank_score (docs : List RetrievedDoc) (i : Nat)
    (h : i < (process_sources docs).length) :
    ((process_sources docs).get ⟨i, h⟩).relevance_score = 1 - (i : ℚ) / 10
    ∧ (∀ j : Nat, ∀ hj : j < (process_sources docs).length, i < j →
        ((process_sources docs).get ⟨j, hj⟩).relevance_score
          < ((process_sources docs).get ⟨i, h⟩).relevance_score)
    ∧ (11 ≤ i → ((process_sources docs).get ⟨i, h⟩).relevance_score < 0) := by
  have hd : i < docs.length := by rw [← process_sources_length docs]; exact h
  have score : ∀ k : Nat, ∀ hk : k < (process_sources docs).length,
      ((process_sources docs).get ⟨k, hk⟩).relevance_score = 1 - (k : ℚ) / 10 := by
    intro k hk
    have hkd : k < docs.length := by rw [← process_sources_length docs]; exact hk
    rw [process_sources_get docs k hkd hk, pyRound2_rank]
  refine ⟨score i h, ?_, ?_⟩
  · intro j hj hij
    rw [score i h, score j hj]
    have : (i : ℚ) < (j : ℚ) := by exact_mod_cast hij
    linarith
  · intro h11
    rw [score i h]
    have : (11 : ℚ) ≤ (i : ℚ) := by exact_mod_cast h11
    linarith

/-- Witness for C8: with twelve retrieved documents, the score at rank 11 is
negative. -/
theorem process_sources_rank_score_witness :
    ((process_sources exRetrieved12).get ⟨11, by decide⟩).relevance_score < 0 :=
  (process_sources_rank_score exRetrieved12 11 (by decide)).2.2 (by norm_num)

/-- C5: whenever split_documents succeeds, the chunk_index metadata across
the whole batch equals the position in the output — hence the indices are
strictly increasing and unique, continuing across document boundaries — and
every chunk records its own character length as chunk_size and the source
of the document it came from. -/
theorem split_documents_batch_indexing
    (splitText : Nat → Nat → String → List String) (chunk_size chunk_overlap : Nat)
    (docs : List IngestDoc) (chunks : List Chunk)
    (h : split_documents splitText chunk_size chunk_overlap docs = .ok chunks) :
    (∀ i : Nat, ∀ hi : i < chunks.length, (chunks.get ⟨i, hi⟩).chunk_index = some i)
    ∧ (∀ i j : Nat, ∀ hi : i < chunks.length, ∀ hj : j < chunks.length, i < j →
        (chunks.get ⟨i, hi⟩).chunk_index.getD 0 < (chunks.get ⟨j, hj⟩).chunk_index.getD 0)
    ∧ (∀ c ∈ chunks, c.chunk_size = some c.pageContent.length
        ∧ ∃ d ∈ docs, c.source = d.source
            ∧ c.pageContent ∈ splitText chunk_size chunk_overlap d.pageContent) := by
  unfold split_documents at h
  split at h
  · exact absurd h (by simp)
  · injection h with h
    subst h
    have hidx : ∀ i : Nat,
        ∀ hi : i < ((lcSplitDocuments (splitText chunk_size chunk_overlap) docs).enum.map
          tagChunk).length,
        (((lcSplitDocuments (splitText chunk_size chunk_overlap) docs).enum.map
          tagChunk).get ⟨i, hi⟩).chunk_index = some i := by
      intro i hi
      simp [tagChunk, List.get_eq_getElem, List.getElem_map, List.enum_eq_enumFrom,
        List.getElem_enumFrom]
    refine ⟨hidx, ?_, ?_⟩
    · intro i j hi hj hij
      rw [hidx i hi, hidx j hj]
      simpa using hij
    · intro c hc
      obtain ⟨p, hp, rfl⟩ := List.mem_map.mp hc
      refine ⟨rfl, ?_⟩
      have hp2 : p.2 ∈ lcSplitDocuments (splitText chunk_size chunk_overlap) docs :=
        List.getElem?_mem (List.mem_enum_iff_getElem?.mp hp)
      obtain ⟨d, hd, ht⟩ := List.mem_flatMap.mp hp2
      obtain ⟨t, htt, hteq⟩ := List.mem_map.mp ht
      refine ⟨d, hd, ?_, ?_⟩
      · simp [tagChunk, ← hteq]
      · simpa [tagChunk, ← hteq] using htt

/-- Witness for C5: on the two-document batch, the third chunk (from the
second document) carries batch index 2. -/
theorem split_documents_batch_indexing_witness :
    (exChunks.get ⟨2, by decide⟩).chunk_index = some 2 :=
  (split_documents_batch_indexing exSplitText 1000 200 exDocs exChunks rfl).1 2 (by decide)

/-- C6: for every role value outside the four recognised keys, prompt
construction returns the template built on the GENERAL persona block, and no
error is raised (the function is total). -/
theorem create_prompt_template_unrecognized_role (role : String)
    (h1 : role ≠ "doctor") (h2 : role ≠ "receptionist") (h3 : role ≠ "billing")
    (h4 : role ≠ "general") :
    create_prompt_template role = promptScaffold GENERAL_PROMPT := by
  unfold create_prompt_template
  have e1 : (role == "doctor") = false := beq_eq_false_iff_ne.mpr h1
  have e2 : (role == "receptionist") = false := beq_eq_false_iff_ne.mpr h2
  have e3 : (role == "billing") = false := beq_eq_false_iff_ne.mpr h3
  have e4 : (role == "general") = false := beq_eq_false_iff_ne.mpr h4
  have hnone : ROLE_PROMPTS.lookup role = none := by
    simp [ROLE_PROMPTS, List.lookup, e1, e2, e3, e4]
  rw [hnone]
  rfl

/-- Witness for C6 at the unrecognised role "nurse". -/
theorem create_prompt_template_unrecognized_role_witness :
    create_prompt_template "nurse" = promptScaffold GENERAL_PROMPT :=
  create_prompt_template_unrecognized_role "nurse" (by decide) (by decide) (by decide)
    (by decide)

/-- C7: with force_reindex false and a collection already holding at least
one entry, ingest_documents is a no-op: no load, split or embed action runs,
the state is unchanged, and the result is documents_processed = 0,
chunks_created = the existing entry count, and time 0.0. -/
theorem ingest_documents_existing_noop (env : IngestEnv) (st : ChromaState)
    (entries : List Chunk) (h1 : st.collection = some entries) (h2 : entries ≠ []) :
    ingest_documents env st false = (st, [], .ok (0, entries.length, 0)) := by
  have hlen : entries.length > 0 := List.length_pos.mpr h2
  unfold ingest_documents collectionCount
  rw [h1]
  simp [hlen]

/-- Witness for C7 on a concrete populated store. -/
theorem ingest_documents_existing_noop_witness :
    ingest_documents exIngestEnv exState false = (exState, [], .ok (0, exChunks.length, 0)) :=
  ingest_documents_existing_noop exIngestEnv exState exChunks rfl (by decide)

/-- C9: get_document_count never raises (it is a total function into the
integers): it returns a non-negative count, and whenever the collection
access fails with any exception it returns 0 instead of propagating it. -/
theorem get_document_count_total (st : ChromaState) :
    0 ≤ get_document_count st
    ∧ (∀ e : PyError, collectionCount st = .error e → get_document_count st = 0) := by
  constructor
  · unfold get_document_count
    cases hc : collectionCount st with
    | ok n => simp
    | error e => simp
  · intro e he
    unfold get_document_count
    rw [he]

/-- Witness for C9 on a store without a reachable collection. -/
theorem get_document_count_total_witness :
    0 ≤ get_document_count ⟨none⟩ ∧ get_document_count ⟨none⟩ = 0 :=
  ⟨(get_document_count_total ⟨none⟩).1,
   (get_document_count_total ⟨none⟩).2 (.otherError "collection unavailable") rfl⟩

/-- Registry dispatch for get_current_datetime with a string timezone
argument: the optional `timezone` parameter binds, so the call reaches the
body and returns whatever it computes. -/
theorem execute_tool_datetime_eq (env : WorldEnv) (z : String) :
    execute_tool env "get_current_datetime" [("timezone", .str z)]
      = .result (getCurrentDatetimeBody env [("timezone", .str z)]) := rfl

/-- C10: GetCurrentDateTimeTool.execute never raises through the registry —
every string timezone argument produces a structured result dict — and for
every timezone string the zone database does not recognise, the result is
success = false with the AttributeError message of the shadowed
`timezone.utc` fallback: the documented fall-back to UTC is never taken. -/
theorem get_current_datetime_never_raises (env : WorldEnv) (tz : String)
    (h : env.validZone tz = false) :
    (∀ z : String, ∃ d, execute_tool env "get_current_datetime" [("timezone", .str z)]
        = .result d)
    ∧ execute_tool env "get_current_datetime" [("timezone", .str tz)]
        = .result (format_result "get_current_datetime" false none
            (some "Error getting datetime: \x27str\x27 object has no attribute \x27utc\x27")) := by
  constructor
  · intro z
    exact ⟨getCurrentDatetimeBody env [("timezone", .str z)], rfl⟩
  · rw [execute_tool_datetime_eq]
    unfold getCurrentDatetimeBody
    simp [validate_params, h]
    rfl

/-- Witness for C10 at the unrecognised zone name "Mars/Olympus". -/
theorem get_current_datetime_never_raises_witness :
    execute_tool exEnv "get_current_datetime" [("timezone", .str "Mars/Olympus")]
      = .result (format_result "get_current_datetime" false none
          (some "Error getting datetime: \x27str\x27 object has no attribute \x27utc\x27")) :=
  (get_current_datetime_never_raises exEnv "Mars/Olympus" rfl).2

end HCA
